import Mathlib

/-!
Verification development for the webot repository: a shallow embedding of
the WebSocket gateway client (src/src/services/websocket.ts), the chat
service (WebChatService.loadHistory), the configuration service
(WebConfigService.loadFromServer), and the HTTP integration handlers
(src/src/server-http-only.ts, moltbot-integration.ts), together with
theorems settling the frozen claims about them.

Conventions of the embedding:
- JSON runtime values are modelled by the inductive JValue below; a field
  access obj.k in JavaScript is JValue.getField, which yields none for a
  missing field (undefined).  JavaScript truthiness is JValue.truthy.
- JSON.parse of an inbound transport message is modelled by an
  Option JValue argument: none stands for a string JSON.parse throws on.
- Promises are modelled explicitly: the session state carries a table of
  futures, each pending, resolved with a value, or rejected with an error
  message.  Resolving or rejecting an already settled future is a no-op,
  exactly as for a JavaScript promise (first writer wins).
- setTimeout timers are recorded in the state and fired by explicit step
  functions; console logging and DOM updates are external effects with no
  bearing on the modelled state and are noted in comments where they occur.
-/

namespace Webot

/-- A JSON runtime value (the values produced by JSON.parse). -/
inductive JValue where
  | null
  | bool (b : Bool)
  | num (n : Int)
  | str (s : String)
  | arr (elems : List JValue)
  | obj (fields : List (String × JValue))

/-- JavaScript truthiness of a JValue (NaN and document objects aside,
which never arise from JSON.parse). -/
def JValue.truthy : JValue → Bool
  | .null => false
  | .bool b => b
  | .num n => n != 0
  | .str s => s != ""
  | .arr _ => true
  | .obj _ => true

/-- Truthiness of a possibly absent value: undefined is falsy. -/
def truthyOpt : Option JValue → Bool
  | none => false
  | some v => v.truthy

/-- Property access obj.k: some value for a present field of an object,
none (undefined) for a missing field or a non-object receiver. -/
def JValue.getField : JValue → String → Option JValue
  | .obj fs, k => fs.lookup k
  | _, _ => none

/-- Property access that observes a string-valued field; none when the
field is absent or not a string.  Comparisons data.type === "res" in the
source are strict string comparisons, so they match exactly this shape. -/
def JValue.strField (j : JValue) (k : String) : Option String :=
  match j.getField k with
  | some (.str s) => some s
  | _ => none

/-- The JavaScript typeof x === "object" test: true for objects, arrays
and null. -/
def JValue.isObjType : JValue → Bool
  | .obj _ => true
  | .arr _ => true
  | .null => true
  | _ => false

/-- String conversion as performed by the Error constructor on a
non-string argument.  For an array, String() joins the stringified
elements; that nested case is abbreviated to "" here, since no claim
depends on the message an Error built from an array carries. -/
def jsDisplay : JValue → String
  | .null => "null"
  | .bool b => cond b "true" "false"
  | .num n => toString n
  | .str s => s
  | .obj _ => "[object Object]"
  | .arr _ => ""

/-- The state of one promise: pending, resolved with a JSON value
(resolve(null) is resolved .null), or rejected with an Error message. -/
inductive FutState where
  | pending
  | resolved (v : JValue)
  | rejected (msg : String)

/-- Settle a promise slot: a pending promise takes the new settlement, an
already settled promise keeps its settlement (first writer wins). -/
def settleOnce (st : FutState) (new : FutState) : FutState :=
  match st with
  | .pending => new
  | other => other

/-- Settle the future with index f in the table to the given settlement,
if it is still pending. -/
def settleFutWith (futs : List (Nat × FutState)) (f : Nat) (st : FutState) :
    List (Nat × FutState) :=
  futs.map (fun p => if p.1 = f then (p.1, settleOnce p.2 st) else p)

/-- Resolve the future with index f in the table to value v, if it is
still pending. -/
def resolveFut (futs : List (Nat × FutState)) (f : Nat) (v : JValue) :
    List (Nat × FutState) :=
  settleFutWith futs f (.resolved v)

/-- Reject the future with index f in the table with message m, if it is
still pending. -/
def rejectFut (futs : List (Nat × FutState)) (f : Nat) (m : String) :
    List (Nat × FutState) :=
  settleFutWith futs f (.rejected m)

/-- The state of one WebSocketService instance
(src/src/services/websocket.ts).

- hasWs: this.ws is not null; wsOpen: this.ws.readyState === OPEN.
- connected, status, lastError, lastConnectedAt, disconnectedAt mirror the
  fields of the source (connectionState holds the last three; timestamps
  taken from new Date() are modelled as Nat arguments of the steps).
- pendingRequests maps a request id to the index of its promise in
  futures, standing for the resolve and reject closures the source map
  stores; the entry timeout handle of the source is cleared exactly when
  the entry is removed, so it stays implicit.
- swrListeners are the per-call message handlers sendWithResponse attaches
  to the (single live) socket, as pairs of the promise index and the
  awaited frame id; swrTimers are the matching 10 second timers.
- reconnectTimers counts the reconnect timeouts scheduled by the onclose
  handler; eventCallbacks and chatEventCallbacks model the subscriber
  lists, each subscriber being an identifier paired with whether invoking
  it throws (its other effects are external).
- connectCallbacks and disconnectCallbacks receive no claim, so their
  invocations are treated as external effects. -/
structure Session where
  hasWs : Bool
  wsOpen : Bool
  connected : Bool
  status : String
  lastError : Option String
  lastConnectedAt : Option Nat
  disconnectedAt : Option Nat
  pendingRequests : List (String × Nat)
  futures : List (Nat × FutState)
  nextFut : Nat
  swrListeners : List (Nat × String)
  swrTimers : List (Nat × String)
  reconnectTimers : Nat
  eventCallbacks : List (Nat × Bool)
  chatEventCallbacks : List (Nat × Bool)

/-- WebSocketService.updateStatus (lines 294 to 306): sets the status,
records the error when one is given and truthy, and stamps disconnectedAt
when entering the disconnected status. -/
def updateStatus (s : Session) (st : String) (err : Option String) (now : Nat) :
    Session :=
  let s1 := { s with status := st }
  let s2 :=
    match err with
    | some e => if e = "" then s1 else { s1 with lastError := some e }
    | none => s1
  if st = "disconnected" then { s2 with disconnectedAt := some now } else s2

/-- WebSocketService.disconnect (lines 91 to 105): closes and drops the
socket, clears the connected flag, moves to the disconnected status, then
rejects every entry of the pendingRequests map with a Connection closed
error (clearing its timer) and empties the map.  The close event the
browser fires for the closed socket is a separate later step,
oncloseHandler below.  Nothing here touches the sendWithResponse
listeners, their timers, or any scheduled reconnect timer. -/
def disconnect (s : Session) (now : Nat) : Session :=
  let s1 := { s with hasWs := false, wsOpen := false, connected := false }
  let s2 := updateStatus s1 "disconnected" (some "Manually disconnected") now
  { s2 with
    futures := s2.pendingRequests.foldl
      (fun fs p => rejectFut fs p.2 "Connection closed") s2.futures,
    pendingRequests := [] }

/-- The ws.onclose handler installed by connect (lines 66 to 77): clears
the connected flag, moves to the disconnected status with the close code,
notifies the disconnect callbacks (external effects), and unconditionally
schedules a reconnect after 3000 ms. -/
def oncloseHandler (s : Session) (code : Nat) (now : Nat) : Session :=
  let s1 := { s with connected := false }
  let s2 := updateStatus s1 "disconnected"
    (some ("Disconnected (code: " ++ toString code ++ ")")) now
  { s2 with reconnectTimers := s2.reconnectTimers + 1 }

/-- The synchronous part of WebSocketService.connect (lines 47 to 59):
moves to the connecting status and creates a fresh socket (not yet open;
the open event arrives later). -/
def connectStart (s : Session) (now : Nat) : Session :=
  let s1 := updateStatus s "connecting" none now
  { s1 with hasWs := true, wsOpen := false }

/-- Firing one scheduled reconnect timer (line 76): the timer consumes
itself and runs reconnect(), which is disconnect() followed by connect()
(lines 107 to 110). -/
def reconnectTimerFire (s : Session) (now : Nat) : Session :=
  let s1 := { s with reconnectTimers := s.reconnectTimers - 1 }
  connectStart (disconnect s1 now) now

/-- The message an Error carries in handleResponse for a failed response:
response.error?.message when that is truthy, the fallback "Request failed"
otherwise (line 152). -/
def errMsgOf (r : JValue) : String :=
  match r.getField "error" with
  | some e =>
    match e.getField "message" with
    | some m => if m.truthy then jsDisplay m else "Request failed"
    | none => "Request failed"
  | none => "Request failed"

/-- Whether a response payload is the successful handshake payload: the
source (lines 158 to 161) requires response.payload truthy, of typeof
"object", with payload.type === "hello-ok". -/
def isHelloOkPayload (p : Option JValue) : Bool :=
  match p with
  | some v => v.truthy && v.isObjType && (v.strField "type" == some "hello-ok")
  | none => false

/-- The first half of WebSocketService.handleResponse (lines 145 to 155):
the pending request whose id matches the response is settled, if the map
holds one: its timer is cleared, its promise is resolved with the payload
when response.ok is truthy and rejected with an Error otherwise, and its
entry is deleted.  An unmatched response changes nothing here. -/
def settleFound (s : Session) (r : JValue) (rid : String) (fid : Nat) : Session :=
  { s with
    futures :=
      if truthyOpt (r.getField "ok") then
        resolveFut s.futures fid ((r.getField "payload").getD .null)
      else
        rejectFut s.futures fid (errMsgOf r),
    pendingRequests := s.pendingRequests.filter (fun p => p.1 != rid) }

/-- The map lookup of handleResponse line 146: with a string response id,
the matched entry is settled and removed, a missing entry changes
nothing. -/
def settleMatchingId (s : Session) (r : JValue) (rid : String) : Session :=
  match s.pendingRequests.lookup rid with
  | some fid => settleFound s r rid fid
  | none => s

/-- The entry to the pending-request settlement: a response whose id is
not a string finds no entry in the string-keyed map. -/
def settleMatching (s : Session) (r : JValue) : Session :=
  match r.strField "id" with
  | some rid => settleMatchingId s r rid
  | none => s

/-- WebSocketService.handleResponse (lines 142 to 170): the matching
pending request is settled first; then, when response.ok is truthy and the
payload is the hello-ok object, the service marks itself connected,
records the time, and notifies the connect callbacks (external
effects). -/
def handleResponse (s : Session) (r : JValue) (now : Nat) : Session :=
  let s1 := settleMatching s r
  if truthyOpt (r.getField "ok") && isHelloOkPayload (r.getField "payload") then
    let s2 := { s1 with connected := true }
    let s3 := updateStatus s2 "connected" (some "Connected") now
    { s3 with lastConnectedAt := some now }
  else
    s1

/-- Array.prototype.forEach over a subscriber list, where each subscriber
is an identifier paired with whether invoking it throws.  Returns the
identifiers invoked, in order, and the identifier of the subscriber whose
exception aborted the iteration, if any.  A throwing subscriber is itself
invoked (it runs until its throw), but forEach gives no opportunity to the
subscribers after it: the exception propagates to the caller. -/
def runCallbacks : List (Nat × Bool) → List Nat × Option Nat
  | [] => ([], none)
  | (i, throws) :: rest =>
    if throws then ([i], some i)
    else
      let (inv, thr) := runCallbacks rest
      (i :: inv, thr)

/-- WebSocketService.handleEvent together with handleChatEvent (lines 172
to 190): every generic event subscriber is invoked first; when the event
field equals "chat" the chat subscribers are then invoked with the
narrower payload.  Returns the invoked generic subscribers, the invoked
chat subscribers, and the thrower, if any; an exception from any
subscriber propagates out of the dispatch (to handleMessage).  The
dispatch reads no other session state and writes none. -/
def handleEventDispatch (evCbs chatCbs : List (Nat × Bool))
    (eventName : Option String) : List Nat × List Nat × Option Nat :=
  let (ginv, gthr) := runCallbacks evCbs
  match gthr with
  | some t => (ginv, [], some t)
  | none =>
    if eventName = some "chat" then
      let (cinv, cthr) := runCallbacks chatCbs
      (ginv, cinv, cthr)
    else
      (ginv, [], none)

/-- The dispatch of WebSocketService.handleMessage on a parsed frame
(lines 118 to 136); an Except.error is an exception reaching the catch.  A
frame with type "event" and event "connect.challenge" triggers
sendConnect, which builds and sends the handshake request (a socket write,
no session state change).  A frame with type "res" goes to handleResponse.
Any other frame with type "event" is dispatched to the subscribers, whose
exceptions propagate to here.  A frame whose type is missing or anything
else falls through all three tests and is dropped. -/
def handleParsedMessage (s : Session) (j : JValue) (now : Nat) :
    Except Unit Session :=
  if j.strField "type" = some "event" ∧ j.strField "event" = some "connect.challenge" then
    .ok s
  else if j.strField "type" = some "res" then
    .ok (handleResponse s j now)
  else if j.strField "type" = some "event" then
    match handleEventDispatch s.eventCallbacks s.chatEventCallbacks (j.strField "event") with
    | (_, _, some _) => .error ()
    | (_, _, none) => .ok s
  else
    .ok s

/-- The body of handleMessage on the raw transport data: JSON.parse
throwing (raw none) is an exception reaching the catch; a parsed value
goes to the dispatch above. -/
def handleMessageBody (s : Session) (raw : Option JValue) (now : Nat) :
    Except Unit Session :=
  match raw with
  | none => .error ()
  | some j => handleParsedMessage s j now

/-- WebSocketService.handleMessage: the body above wrapped in the
try/catch of lines 114 to 139.  The catch only logs, and every throw point
of the body precedes any state mutation, so the caught state is the entry
state. -/
def handleMessage (s : Session) (raw : Option JValue) (now : Nat) : Session :=
  match handleMessageBody s raw now with
  | .ok s1 => s1
  | .error _ => s

/-- Whether a parsed inbound message is the response a sendWithResponse
handler for frame id fid waits for: data.type === "res" and
data.id === frame.id (lines 214 to 215). -/
def matchesResp (raw : Option JValue) (fid : String) : Bool :=
  match raw with
  | none => false
  | some j => j.strField "type" == some "res" && j.strField "id" == some fid

/-- The value a sendWithResponse handler resolves its promise with on the
matching response (line 218): the payload when data.ok is truthy, null
otherwise. -/
def swrRespValue (raw : Option JValue) : JValue :=
  match raw with
  | some j =>
    if truthyOpt (j.getField "ok") then (j.getField "payload").getD .null else .null
  | none => .null

/-- One per-call message handler attached by sendWithResponse (lines 212
to 223), run on an inbound message: on the matching response it detaches
itself and resolves its promise with swrRespValue; on anything else,
including a parse error, it does nothing. -/
def swrMessageHandler (raw : Option JValue) (s : Session) (l : Nat × String) :
    Session :=
  if matchesResp raw l.2 then
    { s with
      swrListeners := s.swrListeners.erase l,
      futures := resolveFut s.futures l.1 (swrRespValue raw) }
  else
    s

/-- Delivery of one inbound socket message: the onmessage property handler
(handleMessage) runs first, then every sendWithResponse handler attached
at dispatch time, in attachment order.  A handler only ever detaches
itself, so iterating the entry snapshot agrees with the browser dispatch
rules.  handleMessage never touches the listener list. -/
def deliverMessage (s : Session) (raw : Option JValue) (now : Nat) : Session :=
  s.swrListeners.foldl (swrMessageHandler raw) (handleMessage s raw now)

/-- WebSocketService.sendWithResponse (lines 202 to 235) for a request
frame with the given id: a fresh promise is created; when the socket is
absent or not open the promise resolves to null at once; otherwise a
message handler is attached, the frame is written to the socket, and a
10000 ms timer is scheduled.  Returns the new state and the promise index.
No entry is ever added to the pendingRequests map here. -/
def sendWithResponse (s : Session) (frameId : String) : Session × Nat :=
  let fid := s.nextFut
  let s1 := { s with nextFut := fid + 1, futures := s.futures ++ [(fid, FutState.pending)] }
  if s1.hasWs && s1.wsOpen then
    ({ s1 with
        swrListeners := s1.swrListeners ++ [(fid, frameId)],
        swrTimers := s1.swrTimers ++ [(fid, frameId)] }, fid)
  else
    ({ s1 with futures := resolveFut s1.futures fid .null }, fid)

/-- The 10 second timer of sendWithResponse firing (lines 229 to 233): it
detaches the handler when this.ws is not null (after a disconnect the
socket reference is gone and the detach silently no-ops), resolves the
promise to null, which is a no-op when a response already settled it, and
consumes itself. -/
def sendTimeoutFire (s : Session) (l : Nat × String) : Session :=
  let s1 := if s.hasWs then { s with swrListeners := s.swrListeners.erase l } else s
  { s1 with
    futures := resolveFut s1.futures l.1 .null,
    swrTimers := s1.swrTimers.erase l }

/-! Chat history replay: WebChatService.loadHistory.  The wire shapes
follow ChatHistoryResponse in src/src/services/types.ts; the fields the
code reads through optional chaining are modelled as options, since the
code guards each of them. -/

/-- One content segment of a chat message (type and text per types.ts;
text read defensively). -/
structure ContentSeg where
  segType : String
  text : Option String

/-- The message body of one history item: role and content are read
through optional chaining in loadHistory. -/
structure HistMsgBody where
  role : Option String
  content : Option (List ContentSeg)
  timestamp : Int
  stopReason : Option String

/-- One item of ChatHistoryResponse.messages. -/
structure HistMsg where
  itemType : String
  id : String
  timestamp : String
  message : Option HistMsgBody

/-- ChatHistoryResponse: the code checks history.messages before use, so
the field is modelled as optional. -/
structure ChatHistoryResponse where
  sessionKey : String
  sessionId : String
  messages : Option (List HistMsg)

/-- The role rendered for one history item: msg.message?.role or
"unknown" when absent or falsy (part_004 line 105). -/
def renderRole (m : HistMsg) : String :=
  match m.message with
  | some b =>
    match b.role with
    | some r => if r = "" then "unknown" else r
    | none => "unknown"
  | none => "unknown"

/-- The text rendered for one history item: the text of every content
segment joined, or "" when the chain is absent (part_004 lines 106 to
108); Array.join writes an empty string for an undefined element. -/
def renderContent (m : HistMsg) : String :=
  match m.message with
  | some b =>
    match b.content with
    | some segs => String.join (segs.map (fun c => c.text.getD ""))
    | none => ""
  | none => ""

/-- WebChatService.loadHistory (part_004 lines 91 to 115) reduced to the
sequence of addMessage calls it performs: when the history response and
its messages field are present, the messages array is reversed in place
and each reversed element is rendered in order; otherwise nothing is
rendered.  The DOM appends happen exactly in the order of the returned
list. -/
def loadHistoryRendered (h : Option ChatHistoryResponse) : List (String × String) :=
  match h with
  | some resp =>
    match resp.messages with
    | some ms => ms.reverse.map (fun m => (renderRole m, renderContent m))
    | none => []
  | none => []

/-! Configuration service: WebConfigService.loadFromServer (part_002 lines
35 to 72).  The held configuration fields are modelled as JValues because
the assignments copy whatever runtime value the server body carries. -/

/-- The held configuration of a WebConfigService instance. -/
structure ConfigState where
  gatewayUrl : JValue
  gatewayToken : JValue

/-- The outcome of the fetch of /api/config as observed by
loadFromServer: the fetch promise rejects (network error), the response
arrives with res.ok false, the body parses to a JSON value, or res.json()
rejects on a malformed body. -/
inductive FetchOutcome where
  | networkError
  | httpError (status : Nat)
  | okJson (body : JValue)
  | okBadJson

/-- The first guarded assignment of the try block (part_002 lines 46 to
48): the held gateway URL is overwritten only when the body field is
present and truthy. -/
def applyUrlField (body : JValue) (s : ConfigState) : ConfigState :=
  if truthyOpt (body.getField "gatewayUrl") then
    { s with gatewayUrl := (body.getField "gatewayUrl").getD .null }
  else s

/-- The second guarded assignment of the try block (part_002 lines 50 to
52): the held gateway token is overwritten only when the body field is
present and truthy. -/
def applyTokenField (body : JValue) (s : ConfigState) : ConfigState :=
  if truthyOpt (body.getField "gatewayToken") then
    { s with gatewayToken := (body.getField "gatewayToken").getD .null }
  else s

/-- Both guarded assignments of the try block, in source order. -/
def applyServerBody (body : JValue) (s : ConfigState) : ConfigState :=
  applyTokenField body (applyUrlField body s)

/-- The try block of loadFromServer, before its catch: a network error
rethrows out of await fetch, a non-OK status throws the built Error, a
malformed body rethrows out of await res.json(); these all precede any
assignment.  On a parsed body the guarded assignments run and the updated
held configuration is returned. -/
def loadFromServerTry (o : FetchOutcome) (s : ConfigState) :
    Except Unit (ConfigState × ConfigState) :=
  match o with
  | .networkError => .error ()
  | .httpError _ => .error ()
  | .okBadJson => .error ()
  | .okJson body => .ok (applyServerBody body s, applyServerBody body s)

/-- WebConfigService.loadFromServer: the try block above wrapped in its
catch, which logs and returns the currently held configuration.  Every
throw point precedes the assignments, so the caught state is the entry
state; the function never rejects. -/
def loadFromServer (o : FetchOutcome) (s : ConfigState) : ConfigState × ConfigState :=
  match loadFromServerTry o s with
  | .ok r => r
  | .error _ => (s, s)

/-! HTTP integration handler: the request handler returned by
createWebotHttpHandler (src/src/server-http-only.ts lines 82 to 143).  The
handler returned by createWebotIntegrationHandler (moltbot-integration.ts
lines 88 to 155) routes identically, differing only in how it imports the
filesystem API, so this one definition embeds both.  Paths are modelled as
character lists; the filesystem is an oracle argument mapping a path to
its entry, where none means statSync or readFileSync throws (the caught
failure makes serveStaticFile return false). -/

/-- A pathname, as a list of characters. -/
abbrev Str := List Char

/-- JavaScript String.prototype.startsWith. -/
def strStartsWith : Str → Str → Bool
  | _, [] => true
  | [], _ :: _ => false
  | c :: s, p :: ps => c == p && strStartsWith s ps

/-- JavaScript String.prototype.endsWith. -/
def strEndsWith (s p : Str) : Bool :=
  strStartsWith s.reverse p.reverse

/-- node:path join of a directory and a path, abstracting node's
normalization of duplicate separators and dot segments, which no route of
the handler relies on. -/
def joinPath (a b : Str) : Str :=
  match b with
  | '/' :: _ => a ++ b
  | _ => a ++ '/' :: b

/-- node:path extname: the dot suffix of the final segment, empty when
the segment has no dot after its first character. -/
def extnameStr (p : Str) : Str :=
  let seg : Str := (p.reverse.takeWhile (fun c => c ≠ '/')).reverse
  let revAfter : Str := seg.reverse.takeWhile (fun c => c ≠ '.')
  if seg.length - 1 ≤ revAfter.length then [] else '.' :: revAfter.reverse

/-- The mimeTypes table of serveStaticFile, with its
application/octet-stream default. -/
def mimeLookup (ext : Str) : String :=
  if ext = ".html".data then "text/html"
  else if ext = ".js".data then "application/javascript"
  else if ext = ".css".data then "text/css"
  else if ext = ".json".data then "application/json"
  else if ext = ".png".data then "image/png"
  else if ext = ".jpg".data then "image/jpeg"
  else if ext = ".svg".data then "image/svg+xml"
  else "application/octet-stream"

/-- A filesystem entry: a regular file with content, or something else
(stat succeeds but isFile() is false). -/
inductive FsEntry where
  | file (c : Str)
  | notFile

/-- The body written by a handled request. -/
inductive RespBody where
  | jsonDoc (j : JValue)
  | fileContent (c : Str)
  | plainText (t : String)

/-- The observable outcome of one handler invocation: notHandled is the
handler returning false having written nothing, so a sibling handler can
take the request; handledWith carries the status, content type, and body
written before returning true. -/
inductive HandlerOutcome where
  | notHandled
  | handledWith (status : Nat) (contentType : String) (body : RespBody)

/-- serveStaticFile (server-http-only.ts lines 44 to 79): none when the
filesystem threw and the catch returned false; a 404 text response when
the path is not a regular file; a 200 response with the content and the
extension-derived content type otherwise. -/
def serveStaticFile (fs : Str → Option FsEntry) (p : Str) :
    Option (Nat × String × RespBody) :=
  match fs p with
  | none => none
  | some .notFile => some (404, "text/plain", .plainText "Not Found")
  | some (.file c) => some (200, mimeLookup (extnameStr p), .fileContent c)

/-- The options a handler is created with (basePath defaults to
"/webot" in the source). -/
structure WebotOptions where
  basePath : Str
  staticDir : Str
  gatewayUrl : String
  gatewayToken : String

/-- The request handler (server-http-only.ts lines 82 to 143, equally
moltbot-integration.ts lines 88 to 155): a pathname outside the base path
is returned unhandled with nothing written; the pathname is then stripped
of the base path (an empty remainder, being falsy, becomes "/");
/api/config is answered with the 200 JSON configuration document; any
other path is served as a static file, falling back to index.html, and
finally to a 404. -/
def webotRequestHandler (opts : WebotOptions) (fs : Str → Option FsEntry)
    (pathname : Str) : HandlerOutcome :=
  if strStartsWith pathname opts.basePath = false then
    .notHandled
  else
    let rel0 : Str := pathname.drop opts.basePath.length
    let relativePath : Str := if rel0 = [] then "/".data else rel0
    if relativePath = "/api/config".data then
      .handledWith 200 "application/json"
        (.jsonDoc (.obj [("gatewayUrl", .str opts.gatewayUrl),
                         ("gatewayToken", .str opts.gatewayToken)]))
    else
      let filePath : Str :=
        if relativePath = "/".data || strEndsWith relativePath ".html".data then
          joinPath opts.staticDir "index.html".data
        else if strStartsWith relativePath "/src/".data then
          joinPath opts.staticDir relativePath
        else if strStartsWith relativePath "/dist/".data then
          joinPath opts.staticDir relativePath
        else
          joinPath opts.staticDir relativePath
      match serveStaticFile fs filePath with
      | some (st, ct, b) => .handledWith st ct b
      | none =>
        match serveStaticFile fs (joinPath opts.staticDir "index.html".data) with
        | some (st, ct, b) => .handledWith st ct b
        | none => .handledWith 404 "text/plain" (.plainText "Not Found")

/-! Helper lemmas about the model. -/

lemma lookup_cons_self {α β : Type} [BEq α] [LawfulBEq α] (k : α) (p : α × β)
    (t : List (α × β)) (h : k = p.1) : (p :: t).lookup k = some p.2 := by
  simp [List.lookup, h]

lemma lookup_cons_ne {α β : Type} [BEq α] [LawfulBEq α] (k : α) (p : α × β)
    (t : List (α × β)) (h : k ≠ p.1) : (p :: t).lookup k = t.lookup k := by
  have hb : (k == p.1) = false := beq_eq_false_iff_ne.mpr h
  simp [List.lookup, hb]

lemma lookup_mem {α β : Type} [BEq α] [LawfulBEq α] :
    ∀ (l : List (α × β)) (k : α) (v : β), l.lookup k = some v → (k, v) ∈ l := by
  intro l k v h
  induction l with
  | nil => cases h
  | cons p t ih =>
    by_cases hk : k = p.1
    · rw [lookup_cons_self k p t hk] at h
      cases h
      rw [hk]
      exact List.mem_cons_self _ _
    · rw [lookup_cons_ne k p t hk] at h
      exact List.mem_cons_of_mem _ (ih h)

lemma lookup_none_of_keys_ne {α β : Type} [BEq α] [LawfulBEq α] :
    ∀ (l : List (α × β)) (k : α), (∀ p ∈ l, p.1 ≠ k) → l.lookup k = none := by
  intro l k h
  induction l with
  | nil => rfl
  | cons p t ih =>
    rw [lookup_cons_ne k p t (fun hk => h p (List.mem_cons_self _ _) hk.symm)]
    exact ih (fun q hq => h q (List.mem_cons_of_mem _ hq))

lemma lookup_append_singleton {α β : Type} [BEq α] [LawfulBEq α] :
    ∀ (l : List (α × β)) (k : α) (v : β), l.lookup k = none →
      (l ++ [(k, v)]).lookup k = some v := by
  intro l k v h
  induction l with
  | nil => simp [List.lookup]
  | cons p t ih =>
    rw [List.cons_append]
    by_cases hk : k = p.1
    · rw [lookup_cons_self k p t hk] at h
      cases h
    · rw [lookup_cons_ne k p t hk] at h
      rw [lookup_cons_ne k p _ hk]
      exact ih h

lemma lookup_filter_ne (l : List (String × Nat)) (k : String) :
    (l.filter (fun p => p.1 != k)).lookup k = none := by
  apply lookup_none_of_keys_ne
  intro p hp
  have := (List.mem_filter.mp hp).2
  simpa using this

lemma lookup_settleFutWith_ne :
    ∀ (l : List (Nat × FutState)) (f g : Nat) (st : FutState), g ≠ f →
      (settleFutWith l f st).lookup g = l.lookup g := by
  intro l f g st h
  induction l with
  | nil => rfl
  | cons p t ih =>
    unfold settleFutWith at ih ⊢
    rw [List.map_cons]
    by_cases hp : p.1 = f
    · rw [if_pos hp]
      rw [lookup_cons_ne g ((p.1, settleOnce p.2 st)) _ (by simpa [hp] using h)]
      rw [lookup_cons_ne g p t (by simpa [hp] using h)]
      exact ih
    · rw [if_neg hp]
      by_cases hg : g = p.1
      · rw [lookup_cons_self g p _ hg, lookup_cons_self g p t hg]
      · rw [lookup_cons_ne g p _ hg, lookup_cons_ne g p t hg]
        exact ih

lemma lookup_settleFutWith_pending :
    ∀ (l : List (Nat × FutState)) (f : Nat) (st : FutState),
      l.lookup f = some FutState.pending →
      (settleFutWith l f st).lookup f = some st := by
  intro l f st h
  induction l with
  | nil => cases h
  | cons p t ih =>
    unfold settleFutWith at ih ⊢
    rw [List.map_cons]
    by_cases hp : f = p.1
    · rw [lookup_cons_self f p t hp] at h
      rw [if_pos hp.symm]
      rw [lookup_cons_self f (p.1, settleOnce p.2 st) _ hp]
      have h2 : p.2 = FutState.pending := Option.some.inj h
      rw [h2]
      rfl
    · rw [lookup_cons_ne f p t hp] at h
      by_cases hpf : p.1 = f
      · exact absurd hpf.symm hp
      · rw [if_neg hpf]
        rw [lookup_cons_ne f p _ hp]
        exact ih h

lemma strStartsWith_append (b r : Str) : strStartsWith (b ++ r) b = true := by
  induction b with
  | nil =>
    cases r <;> rfl
  | cons c t ih => simp [strStartsWith, ih]

lemma updateStatus_parts (s : Session) (st : String) (err : Option String) (now : Nat) :
    (updateStatus s st err now).futures = s.futures
    ∧ (updateStatus s st err now).pendingRequests = s.pendingRequests
    ∧ (updateStatus s st err now).swrListeners = s.swrListeners
    ∧ (updateStatus s st err now).connected = s.connected
    ∧ (updateStatus s st err now).status = st := by
  unfold updateStatus
  rcases err with _ | e
  · by_cases h : st = "disconnected" <;> simp [h]
  · by_cases he : e = "" <;> by_cases h : st = "disconnected" <;> simp [he, h]

/-! Concrete fixtures used by the witnesses and counterexamples. -/

/-- A session that finished the handshake: socket open, connected, no
pending requests, no listeners, nothing scheduled. -/
def sessionConn : Session :=
  { hasWs := true, wsOpen := true, connected := true, status := "connected",
    lastError := none, lastConnectedAt := some 0, disconnectedAt := none,
    pendingRequests := [], futures := [], nextFut := 0,
    swrListeners := [], swrTimers := [], reconnectTimers := 0,
    eventCallbacks := [], chatEventCallbacks := [] }

/-- A connected session with one reconnect already scheduled. -/
def sessionRe : Session := { sessionConn with reconnectTimers := 1 }

/-- A session before the handshake completed. -/
def sessionDisc : Session :=
  { sessionConn with connected := false, status := "disconnected" }

/-- A response with ok false matching request id r1, carrying a
server-reported error code and message. -/
def rspErr : JValue :=
  .obj [("type", .str "res"), ("id", .str "r1"), ("ok", .bool false),
        ("error", .obj [("code", .num 5), ("message", .str "boom")])]

/-- A successful handshake response. -/
def rspHello : JValue :=
  .obj [("type", .str "res"), ("id", .str "x"), ("ok", .bool true),
        ("payload", .obj [("type", .str "hello-ok")])]

/-- An inbound frame with an unrecognized type. -/
def unknownFrame : JValue := .obj [("type", .str "mystery"), ("id", .str "z")]

/-- Handler options with the default base path. -/
def optsW : WebotOptions :=
  { basePath := "/webot".data, staticDir := "/srv".data,
    gatewayUrl := "ws://localhost:18789/", gatewayToken := "tok" }

/-- A newer history item (wire position first: newest-first). -/
def histNewer : HistMsg :=
  ⟨"message", "a", "t2",
   some ⟨some "assistant", some [⟨"text", some "hi"⟩], 2, none⟩⟩

/-- An older history item (wire position second). -/
def histOlder : HistMsg :=
  ⟨"message", "b", "t1",
   some ⟨some "user", some [⟨"text", some "yo"⟩], 1, none⟩⟩

/-- The timestamp of a history item, read from its message body. -/
def tsOf : HistMsg → Nat := fun m =>
  match m.message with
  | some b => b.timestamp.toNat
  | none => 0

/-- A held configuration. -/
def cfg0 : ConfigState := { gatewayUrl := .str "old", gatewayToken := .str "" }

/-! The claims. -/

lemma settleMatching_parts (s : Session) (r : JValue) :
    (settleMatching s r).connected = s.connected
    ∧ (settleMatching s r).status = s.status := by
  unfold settleMatching settleMatchingId settleFound
  split <;> try split
  all_goals exact ⟨rfl, rfl⟩

lemma isHelloOkPayload_iff (p : Option JValue) :
    isHelloOkPayload p = true
      ↔ ∃ fs, p = some (.obj fs)
          ∧ (JValue.obj fs).getField "type" = some (.str "hello-ok") := by
  cases p with
  | none => simp [isHelloOkPayload]
  | some v =>
    cases v with
    | null => simp [isHelloOkPayload, JValue.truthy]
    | bool b => simp [isHelloOkPayload, JValue.truthy, JValue.isObjType]
    | num n => simp [isHelloOkPayload, JValue.truthy, JValue.isObjType]
    | str st => simp [isHelloOkPayload, JValue.truthy, JValue.isObjType]
    | arr es => simp [isHelloOkPayload, JValue.truthy, JValue.isObjType,
        JValue.strField, JValue.getField]
    | obj fs =>
      simp only [isHelloOkPayload, JValue.truthy, JValue.isObjType,
        Bool.true_and, Option.some.injEq]
      cases hg : (JValue.obj fs).getField "type" with
      | none =>
        simp [JValue.strField, hg]
      | some v2 =>
        cases v2 <;> simp [JValue.strField, hg]

/-- Claim C1: the session enters the connected state only when the
response envelope has ok equal to true and the payload is an object whose
type discriminator equals hello-ok; with ok true and any other payload
shape, handleResponse leaves the session out of the connected state.  For
a session not yet connected and a response whose ok field is the boolean
b, the resulting state is connected (flag or status) exactly when b is
true and the payload is a hello-ok object. -/
theorem c1_connected_only_on_hello_ok (s : Session) (r : JValue) (b : Bool) (now : Nat)
    (hc : s.connected = false) (hs : s.status ≠ "connected")
    (hok : r.getField "ok" = some (.bool b)) :
    ((handleResponse s r now).connected = true
        ∨ (handleResponse s r now).status = "connected")
      ↔ (b = true ∧ ∃ fs, r.getField "payload" = some (.obj fs)
          ∧ (JValue.obj fs).getField "type" = some (.str "hello-ok")) := by
  unfold handleResponse
  have htr : truthyOpt (r.getField "ok") = b := by rw [hok]; rfl
  rw [htr]
  by_cases hp : isHelloOkPayload (r.getField "payload") = true
  · cases b with
    | false =>
      rw [if_neg (by simp :
        ¬((false && isHelloOkPayload (r.getField "payload")) = true))]
      constructor
      · intro h
        rcases h with h1 | h1
        · rw [(settleMatching_parts s r).1, hc] at h1
          cases h1
        · rw [(settleMatching_parts s r).2] at h1
          exact absurd h1 hs
      · rintro ⟨hb, _⟩
        cases hb
    | true =>
      rw [if_pos (by simp [hp] :
        ((true && isHelloOkPayload (r.getField "payload"))) = true)]
      constructor
      · intro _
        exact ⟨rfl, (isHelloOkPayload_iff _).mp hp⟩
      · intro _
        right
        exact (updateStatus_parts _ _ _ _).2.2.2.2
  · have hcond : ¬((b && isHelloOkPayload (r.getField "payload")) = true) := by
      cases b
      · simp
      · simpa using hp
    rw [if_neg hcond]
    constructor
    · intro h
      rcases h with h1 | h1
      · rw [(settleMatching_parts s r).1, hc] at h1
        cases h1
      · rw [(settleMatching_parts s r).2] at h1
        exact absurd h1 hs
    · rintro ⟨hb, hex⟩
      exact absurd ((isHelloOkPayload_iff _).mpr hex) hp

/-- Claim C1 witness: the concrete hello-ok response moves the concrete
unconnected session into the connected state. -/
theorem c1_witness :
    (handleResponse sessionDisc rspHello 5).connected = true
      ∨ (handleResponse sessionDisc rspHello 5).status = "connected" :=
  (c1_connected_only_on_hello_ok sessionDisc rspHello true 5 rfl (by decide) rfl).mpr
    ⟨rfl, [("type", .str "hello-ok")], rfl, rfl⟩

/-- Claim C2 (code bug): the claim says a disconnect() issued while N
requests are outstanding settles every one of their futures with a
closed-connection outcome before returning, leaving no pending request.
The code contradicts this: sendWithResponse never registers its promise in
the pendingRequests map that disconnect() cancels, so with one request
outstanding, disconnect() returns with that promise still pending (first
conjunct) while the map it did cancel was empty (second conjunct); the
promise settles only when its own 10 second timer later fires, and then
with null, not with a closed-connection failure (third conjunct). -/
theorem c2_disconnect_leaves_caller_future_pending :
    ((disconnect (sendWithResponse sessionConn "r1").1 3).futures.lookup
        (sendWithResponse sessionConn "r1").2 = some FutState.pending)
    ∧ (disconnect (sendWithResponse sessionConn "r1").1 3).pendingRequests = []
    ∧ ((sendTimeoutFire (disconnect (sendWithResponse sessionConn "r1").1 3)
          ((sendWithResponse sessionConn "r1").2, "r1")).futures.lookup
        (sendWithResponse sessionConn "r1").2 = some (FutState.resolved .null)) :=
  ⟨rfl, rfl, rfl⟩

/-- Claim C3, counterexample: the claim says an explicit disconnect()
cancels any scheduled reconnect and suppresses the next automatic attempt.
On a session with one reconnect already scheduled, disconnect() leaves it
scheduled; the close event of the socket disconnect() closed schedules a
second one; and firing one of them puts the service back into the
connecting status with no caller connect(). -/
theorem c3_counterexample :
    (disconnect sessionRe 0).reconnectTimers = 1
    ∧ (oncloseHandler (disconnect sessionRe 0) 1006 1).reconnectTimers = 2
    ∧ (reconnectTimerFire (oncloseHandler (disconnect sessionRe 0) 1006 1) 2).status
        = "connecting" :=
  ⟨rfl, rfl, rfl⟩

/-- Claim C3, amended: explicit disconnect() neither cancels scheduled
reconnects nor suppresses the next automatic attempt.  For every session,
disconnect() leaves the scheduled reconnect count unchanged, the close
event fired for the socket it closed schedules one more automatic
reconnect (after the fixed 3000 ms delay), and when such a timer fires the
service automatically re-enters the connecting status without any caller
connect(). -/
theorem c3_disconnect_does_not_suppress_reconnect
    (s : Session) (now c now2 now3 : Nat) :
    (disconnect s now).reconnectTimers = s.reconnectTimers
    ∧ (oncloseHandler (disconnect s now) c now2).reconnectTimers
        = s.reconnectTimers + 1
    ∧ (reconnectTimerFire (oncloseHandler (disconnect s now) c now2) now3).status
        = "connecting" :=
  ⟨rfl, rfl, rfl⟩

/-- Claim C5, counterexample: the claim says a response with ok false that
matches an outstanding request fails the pending future with the
server-reported RemoteError, and that this failure is surfaced to the
caller of sendWithResponse.  Delivering exactly such a response (rspErr:
ok false, error code 5, message boom, matching the outstanding request r1)
leaves the caller's future resolved with null: no failure, and no code or
message, reaches the caller. -/
theorem c5_counterexample :
    matchesResp (some rspErr) "r1" = true
    ∧ truthyOpt (rspErr.getField "ok") = false
    ∧ ((deliverMessage (sendWithResponse sessionConn "r1").1 (some rspErr) 4).futures.lookup
        (sendWithResponse sessionConn "r1").2 = some (FutState.resolved .null)) :=
  ⟨rfl, rfl, rfl⟩

/-- Claim C6: processing an inbound frame whose type field is missing or
unrecognized never raises out of the receive path and never alters any
session state: handleMessage returns the state unchanged, and for a parsed
frame the body does not even reach its catch. -/
theorem c6_unrecognized_frame_dropped (s : Session) (raw : Option JValue) (now : Nat)
    (h : raw = none ∨ ∃ j, raw = some j ∧ j.strField "type" ≠ some "event"
        ∧ j.strField "type" ≠ some "res") :
    handleMessage s raw now = s
    ∧ ∀ j, raw = some j → handleMessageBody s (some j) now = Except.ok s := by
  rcases h with hnone | ⟨j, hj, hev, hres⟩
  · subst hnone
    exact ⟨rfl, fun j hj => Option.noConfusion hj⟩
  · subst hj
    have hb : handleMessageBody s (some j) now = Except.ok s := by
      show handleParsedMessage s j now = Except.ok s
      unfold handleParsedMessage
      rw [if_neg (fun hc => hev hc.1), if_neg hres, if_neg hev]
    refine ⟨?_, fun j2 hj2 => by cases hj2; exact hb⟩
    unfold handleMessage
    rw [hb]

/-- Claim C6 witness: handleMessage drops the concrete frame with type
mystery, leaving the concrete session untouched. -/
theorem c6_witness : handleMessage sessionConn (some unknownFrame) 3 = sessionConn :=
  (c6_unrecognized_frame_dropped sessionConn (some unknownFrame) 3
    (Or.inr ⟨unknownFrame, rfl, by decide, by decide⟩)).1

/-- Claim C7, counterexample: the claim says a throwing subscriber does
not prevent delivery to every subsequent subscriber registered at dispatch
time.  Dispatching a chat event to generic subscribers 0 (which throws)
and 1, with chat subscriber 2 registered, invokes only subscriber 0:
subscriber 1 and the chat subscriber get nothing. -/
theorem c7_counterexample :
    handleEventDispatch [(0, true), (1, false)] [(2, false)] (some "chat")
      = ([0], [], some 0) := rfl

/-- Claim C7, amended: a subscriber that throws aborts dispatch of that
event: the subscribers before it run, it runs, and everything after it,
including every chat-specific subscriber, is skipped for that event; the
exception is caught by the receive path (handleMessage), which logs it and
returns with the session state unchanged. -/
theorem c7_throwing_subscriber_aborts_dispatch
    (pre : List (Nat × Bool)) (i : Nat) (post : List (Nat × Bool))
    (chatCbs : List (Nat × Bool)) (ev : Option String)
    (s : Session) (j : JValue) (now : Nat)
    (hpre : ∀ p ∈ pre, p.2 = false) :
    runCallbacks (pre ++ (i, true) :: post) = (pre.map Prod.fst ++ [i], some i)
    ∧ (handleEventDispatch (pre ++ (i, true) :: post) chatCbs ev).2.1 = []
    ∧ (j.strField "type" = some "event" → handleMessage s (some j) now = s) := by
  have hrun : ∀ (t : List (Nat × Bool)), (∀ p ∈ t, p.2 = false) →
      runCallbacks (t ++ (i, true) :: post) = (t.map Prod.fst ++ [i], some i) := by
    intro t
    induction t with
    | nil => intro _; rfl
    | cons p t2 ih =>
      intro hall
      rcases p with ⟨pi, pb⟩
      have hp2 : pb = false := hall (pi, pb) (List.mem_cons_self _ _)
      subst hp2
      have iht := ih (fun q hq => hall q (List.mem_cons_of_mem _ hq))
      rw [List.cons_append]
      unfold runCallbacks
      rw [iht]
      simp
  refine ⟨hrun pre hpre, ?_, ?_⟩
  · unfold handleEventDispatch
    rw [hrun pre hpre]
  · intro ht
    have hbody : handleMessageBody s (some j) now = Except.ok s
        ∨ handleMessageBody s (some j) now = Except.error () := by
      show handleParsedMessage s j now = Except.ok s
          ∨ handleParsedMessage s j now = Except.error ()
      unfold handleParsedMessage
      by_cases hch : j.strField "event" = some "connect.challenge"
      · rw [if_pos ⟨ht, hch⟩]
        left
        rfl
      · rw [if_neg (fun hc => hch hc.2)]
        rw [if_neg (fun hc => by
          rw [ht] at hc
          exact absurd (Option.some.inj hc) (by decide))]
        rw [if_pos ht]
        rcases handleEventDispatch s.eventCallbacks s.chatEventCallbacks
            (j.strField "event") with ⟨a, bb, c⟩
        cases c
        · left; rfl
        · right; rfl
    unfold handleMessage
    rcases hbody with hb | hb <;> rw [hb]

/-- Claim C7 witness: the amended theorem applied to the concrete prefix
of one harmless subscriber followed by a throwing one. -/
theorem c7_witness :
    runCallbacks [(5, false), (9, true)] = ([5, 9], some 9) :=
  (c7_throwing_subscriber_aborts_dispatch [(5, false)] 9 [] [] (some "chat")
    sessionConn unknownFrame 0 (by decide)).1

/-- Claim C8: loadHistory replays the wire messages in exactly reversed
order, so a newest-first wire list is rendered oldest first: the rendered
sequence is the reverse of the messages array mapped through the
role and content renderers, and whenever the wire list is sorted
newest-first under any timestamp assignment, the replayed order is sorted
oldest-first under it. -/
theorem c8_history_replayed_in_reverse (sk sid : String) (ms : List HistMsg) :
    loadHistoryRendered (some ⟨sk, sid, some ms⟩)
      = ms.reverse.map (fun m => (renderRole m, renderContent m))
    ∧ ∀ (ts : HistMsg → Nat), ms.Pairwise (fun a b => ts b ≤ ts a) →
        ms.reverse.Pairwise (fun a b => ts a ≤ ts b) := by
  refine ⟨rfl, fun ts h => ?_⟩
  rw [List.pairwise_reverse]
  exact h

/-- Claim C8 witness: the two concrete wire messages, newest first, replay
oldest first. -/
theorem c8_witness :
    [histNewer, histOlder].reverse.Pairwise (fun a b => tsOf a ≤ tsOf b) :=
  (c8_history_replayed_in_reverse "s" "i" [histNewer, histOlder]).2 tsOf (by decide)

/-- Claim C10: loadFromServer never rejects, and on every fetch outcome
other than a parsed OK body (network error, non-OK HTTP status, malformed
body) it returns the held configuration unchanged; moreover the returned
configuration always equals the held configuration after the call, and a
held field changes only when the corresponding field of a parsed body is
present and truthy, in which case it takes that field's value. -/
theorem c10_load_from_server_never_rejects (o : FetchOutcome) (s : ConfigState) :
    (loadFromServer o s).2 = (loadFromServer o s).1
    ∧ ((∀ b, o ≠ .okJson b) → loadFromServer o s = (s, s))
    ∧ ((loadFromServer o s).1.gatewayUrl ≠ s.gatewayUrl →
        ∃ b, o = .okJson b ∧ truthyOpt (b.getField "gatewayUrl") = true
          ∧ (loadFromServer o s).1.gatewayUrl = (b.getField "gatewayUrl").getD .null)
    ∧ ((loadFromServer o s).1.gatewayToken ≠ s.gatewayToken →
        ∃ b, o = .okJson b ∧ truthyOpt (b.getField "gatewayToken") = true
          ∧ (loadFromServer o s).1.gatewayToken = (b.getField "gatewayToken").getD .null) := by
  cases o with
  | networkError => exact ⟨rfl, fun _ => rfl, fun h => absurd rfl h, fun h => absurd rfl h⟩
  | httpError st => exact ⟨rfl, fun _ => rfl, fun h => absurd rfl h, fun h => absurd rfl h⟩
  | okBadJson => exact ⟨rfl, fun _ => rfl, fun h => absurd rfl h, fun h => absurd rfl h⟩
  | okJson body =>
    have hload : loadFromServer (.okJson body) s
        = (applyServerBody body s, applyServerBody body s) := rfl
    rw [hload]
    unfold applyServerBody applyUrlField applyTokenField
    by_cases hu : truthyOpt (body.getField "gatewayUrl") = true
    · rw [if_pos hu]
      by_cases htk : truthyOpt (body.getField "gatewayToken") = true
      · rw [if_pos htk]
        exact ⟨rfl, fun hno => absurd rfl (hno body),
          fun _ => ⟨body, rfl, hu, rfl⟩, fun _ => ⟨body, rfl, htk, rfl⟩⟩
      · rw [if_neg htk]
        exact ⟨rfl, fun hno => absurd rfl (hno body),
          fun _ => ⟨body, rfl, hu, rfl⟩, fun h => absurd rfl h⟩
    · rw [if_neg hu]
      by_cases htk : truthyOpt (body.getField "gatewayToken") = true
      · rw [if_pos htk]
        exact ⟨rfl, fun hno => absurd rfl (hno body),
          fun h => absurd rfl h, fun _ => ⟨body, rfl, htk, rfl⟩⟩
      · rw [if_neg htk]
        exact ⟨rfl, fun _ => rfl, fun h => absurd rfl h, fun h => absurd rfl h⟩

/-- Claim C10 witness: a rejecting fetch leaves the concrete held
configuration untouched and returns it. -/
theorem c10_witness : loadFromServer .networkError cfg0 = (cfg0, cfg0) :=
  (c10_load_from_server_never_rejects .networkError cfg0).2.1
    (fun _ h => FetchOutcome.noConfusion h)

/-- Claim C9: a request whose path does not start with the configured
base path is returned unhandled with nothing written, so the handler can
be chained; and the request for basePath/api/config is answered with a 200
application/json response whose document carries the gatewayUrl and
gatewayToken fields, and the handler reports it handled. -/
theorem c9_handler_routing (opts : WebotOptions) (fs : Str → Option FsEntry)
    (pathname : Str) :
    (strStartsWith pathname opts.basePath = false →
      webotRequestHandler opts fs pathname = .notHandled)
    ∧ webotRequestHandler opts fs (opts.basePath ++ "/api/config".data)
        = .handledWith 200 "application/json"
            (.jsonDoc (.obj [("gatewayUrl", .str opts.gatewayUrl),
                             ("gatewayToken", .str opts.gatewayToken)]))
    ∧ (JValue.obj [("gatewayUrl", .str opts.gatewayUrl),
                   ("gatewayToken", .str opts.gatewayToken)]).getField "gatewayUrl"
        = some (.str opts.gatewayUrl)
    ∧ (JValue.obj [("gatewayUrl", .str opts.gatewayUrl),
                   ("gatewayToken", .str opts.gatewayToken)]).getField "gatewayToken"
        = some (.str opts.gatewayToken) := by
  refine ⟨?_, ?_, rfl, rfl⟩
  · intro h
    unfold webotRequestHandler
    rw [if_pos h]
  · unfold webotRequestHandler
    rw [if_neg (by simp [strStartsWith_append])]
    rw [List.drop_left]
    rfl

/-- Claim C9 witness: the concrete handler passes a request outside its
base path to the next handler. -/
theorem c9_witness :
    webotRequestHandler optsW (fun _ => none) "/other".data = .notHandled :=
  (c9_handler_routing optsW (fun _ => none) "/other".data).1 (by decide)

/-! Machinery for claims C4 and C5: reduction equations for the
pending-request settlement and an invariant followed by one
sendWithResponse call across message deliveries. -/

lemma settleMatching_eq_none (s : Session) (r : JValue)
    (h : r.strField "id" = none) : settleMatching s r = s := by
  unfold settleMatching
  rw [h]

lemma settleMatching_eq_id (s : Session) (r : JValue) (rid : String)
    (h : r.strField "id" = some rid) :
    settleMatching s r = settleMatchingId s r rid := by
  unfold settleMatching
  rw [h]

lemma settleMatchingId_eq_none (s : Session) (r : JValue) (rid : String)
    (h : s.pendingRequests.lookup rid = none) : settleMatchingId s r rid = s := by
  unfold settleMatchingId
  rw [h]

lemma settleMatchingId_eq_found (s : Session) (r : JValue) (rid : String) (fid : Nat)
    (h : s.pendingRequests.lookup rid = some fid) :
    settleMatchingId s r rid = settleFound s r rid fid := by
  unfold settleMatchingId
  rw [h]

lemma settleFound_parts (s : Session) (r : JValue) (rid : String) (fid : Nat) :
    (settleFound s r rid fid).futures
      = (if truthyOpt (r.getField "ok") = true
         then resolveFut s.futures fid ((r.getField "payload").getD .null)
         else rejectFut s.futures fid (errMsgOf r))
    ∧ (settleFound s r rid fid).pendingRequests
      = s.pendingRequests.filter (fun p => p.1 != rid)
    ∧ (settleFound s r rid fid).swrListeners = s.swrListeners :=
  ⟨rfl, rfl, rfl⟩

lemma handleResponse_parts (s : Session) (r : JValue) (now : Nat) :
    (handleResponse s r now).futures = (settleMatching s r).futures
    ∧ (handleResponse s r now).pendingRequests = (settleMatching s r).pendingRequests
    ∧ (handleResponse s r now).swrListeners = (settleMatching s r).swrListeners := by
  unfold handleResponse
  by_cases hcond : (truthyOpt (r.getField "ok")
      && isHelloOkPayload (r.getField "payload")) = true
  · rw [if_pos hcond]
    refine ⟨?_, ?_, ?_⟩
    · rw [(updateStatus_parts _ _ _ _).1]
    · rw [(updateStatus_parts _ _ _ _).2.1]
    · rw [(updateStatus_parts _ _ _ _).2.2.1]
  · rw [if_neg hcond]
    exact ⟨rfl, rfl, rfl⟩

/-- The state a sendWithResponse call for the frame id frameId with
promise index fid relies on while it waits: its promise is still pending,
every attached handler with its promise index awaits exactly frameId, and
no pendingRequests entry points at its promise or carries its frame
id. -/
def swrInv (fid : Nat) (frameId : String) (s : Session) : Prop :=
  s.futures.lookup fid = some FutState.pending
  ∧ (∀ p ∈ s.swrListeners, p.1 = fid → p.2 = frameId)
  ∧ (∀ p ∈ s.pendingRequests, p.2 ≠ fid ∧ p.1 ≠ frameId)

lemma settleMatching_inv (fid : Nat) (frameId : String) (s : Session) (r : JValue)
    (h : swrInv fid frameId s) : swrInv fid frameId (settleMatching s r) := by
  obtain ⟨hf, hl, hp⟩ := h
  cases hid : r.strField "id" with
  | none =>
    rw [settleMatching_eq_none s r hid]
    exact ⟨hf, hl, hp⟩
  | some rid =>
    rw [settleMatching_eq_id s r rid hid]
    cases hq : s.pendingRequests.lookup rid with
    | none =>
      rw [settleMatchingId_eq_none s r rid hq]
      exact ⟨hf, hl, hp⟩
    | some fid2 =>
      rw [settleMatchingId_eq_found s r rid fid2 hq]
      have hmem := lookup_mem s.pendingRequests rid fid2 hq
      have hfid2 : fid2 ≠ fid := (hp (rid, fid2) hmem).1
      obtain ⟨e1, e2, e3⟩ := settleFound_parts s r rid fid2
      refine ⟨?_, ?_, ?_⟩
      · rw [e1]
        by_cases hok : truthyOpt (r.getField "ok") = true
        · rw [if_pos hok]
          unfold resolveFut
          rw [lookup_settleFutWith_ne _ _ _ _ (fun he => hfid2 he.symm)]
          exact hf
        · rw [if_neg hok]
          unfold rejectFut
          rw [lookup_settleFutWith_ne _ _ _ _ (fun he => hfid2 he.symm)]
          exact hf
      · rw [e3]
        exact hl
      · rw [e2]
        intro p hp2
        exact hp p (List.mem_of_mem_filter hp2)

lemma handleResponse_inv (fid : Nat) (frameId : String) (s : Session) (r : JValue)
    (now : Nat) (h : swrInv fid frameId s) :
    swrInv fid frameId (handleResponse s r now) := by
  obtain ⟨hf, hl, hp⟩ := settleMatching_inv fid frameId s r h
  obtain ⟨e1, e2, e3⟩ := handleResponse_parts s r now
  exact ⟨by rw [e1]; exact hf, by rw [e3]; exact hl, by rw [e2]; exact hp⟩

lemma handleMessage_cases (s : Session) (raw : Option JValue) (now : Nat) :
    handleMessage s raw now = s
    ∨ ∃ j, raw = some j ∧ handleMessage s raw now = handleResponse s j now := by
  cases raw with
  | none => exact Or.inl rfl
  | some j =>
    have hm : handleMessage s (some j) now
        = (match handleParsedMessage s j now with
           | .ok s1 => s1
           | .error _ => s) := rfl
    rw [hm]
    unfold handleParsedMessage
    by_cases h1 : j.strField "type" = some "event"
        ∧ j.strField "event" = some "connect.challenge"
    · rw [if_pos h1]
      exact Or.inl rfl
    · rw [if_neg h1]
      by_cases h2 : j.strField "type" = some "res"
      · rw [if_pos h2]
        exact Or.inr ⟨j, rfl, rfl⟩
      · rw [if_neg h2]
        by_cases h3 : j.strField "type" = some "event"
        · rw [if_pos h3]
          rcases handleEventDispatch s.eventCallbacks s.chatEventCallbacks
              (j.strField "event") with ⟨a, bb, c⟩
          cases c
          · exact Or.inl rfl
          · exact Or.inl rfl
        · rw [if_neg h3]
          exact Or.inl rfl

lemma handleMessage_inv (fid : Nat) (frameId : String) (s : Session)
    (raw : Option JValue) (now : Nat) (h : swrInv fid frameId s) :
    swrInv fid frameId (handleMessage s raw now) := by
  rcases handleMessage_cases s raw now with he | ⟨j, _, he⟩
  · rw [he]
    exact h
  · rw [he]
    exact handleResponse_inv fid frameId s j now h

lemma handleMessage_swrListeners (s : Session) (raw : Option JValue) (now : Nat) :
    (handleMessage s raw now).swrListeners = s.swrListeners := by
  rcases handleMessage_cases s raw now with he | ⟨j, _, he⟩
  · rw [he]
  · rw [he, (handleResponse_parts s j now).2.2]
    cases hid : j.strField "id" with
    | none => rw [settleMatching_eq_none s j hid]
    | some rid =>
      rw [settleMatching_eq_id s j rid hid]
      cases hq : s.pendingRequests.lookup rid with
      | none => rw [settleMatchingId_eq_none s j rid hq]
      | some fid2 =>
        rw [settleMatchingId_eq_found s j rid fid2 hq]
        exact (settleFound_parts s j rid fid2).2.2

lemma swrHandlerStep_inv (fid : Nat) (frameId : String) (raw : Option JValue)
    (hm : matchesResp raw frameId = false) (l : Nat × String)
    (hl1 : l.1 = fid → l.2 = frameId) (s : Session)
    (h : swrInv fid frameId s) : swrInv fid frameId (swrMessageHandler raw s l) := by
  unfold swrMessageHandler
  by_cases hmm : matchesResp raw l.2 = true
  · rw [if_pos hmm]
    obtain ⟨hf, hls, hp⟩ := h
    have hne : l.1 ≠ fid := by
      intro he
      rw [hl1 he] at hmm
      rw [hmm] at hm
      cases hm
    refine ⟨?_, ?_, hp⟩
    · show (resolveFut s.futures l.1 (swrRespValue raw)).lookup fid
        = some FutState.pending
      unfold resolveFut
      rw [lookup_settleFutWith_ne _ _ _ _ (fun he => hne he.symm)]
      exact hf
    · intro p hp2 hp1
      exact hls p (List.erase_subset _ _ hp2) hp1
  · rw [if_neg hmm]
    exact h

lemma foldl_handlers_inv (fid : Nat) (frameId : String) (raw : Option JValue)
    (hm : matchesResp raw frameId = false) :
    ∀ (L : List (Nat × String)) (s : Session),
      (∀ l ∈ L, l.1 = fid → l.2 = frameId) →
      swrInv fid frameId s →
      swrInv fid frameId (L.foldl (swrMessageHandler raw) s) := by
  intro L
  induction L with
  | nil => exact fun s _ h => h
  | cons l t ih =>
    intro s hL h
    rw [List.foldl_cons]
    exact ih _ (fun q hq => hL q (List.mem_cons_of_mem _ hq))
      (swrHandlerStep_inv fid frameId raw hm l (hL l (List.mem_cons_self _ _)) s h)

lemma deliverMessage_inv (fid : Nat) (frameId : String) (s : Session)
    (raw : Option JValue) (now : Nat) (hm : matchesResp raw frameId = false)
    (h : swrInv fid frameId s) : swrInv fid frameId (deliverMessage s raw now) := by
  unfold deliverMessage
  exact foldl_handlers_inv fid frameId raw hm s.swrListeners
    (handleMessage s raw now) (fun l hl => h.2.1 l hl)
    (handleMessage_inv fid frameId s raw now h)

lemma msgsFold_inv (fid : Nat) (frameId : String) (now : Nat) :
    ∀ (msgs : List (Option JValue)) (s : Session),
      (∀ m ∈ msgs, matchesResp m frameId = false) →
      swrInv fid frameId s →
      swrInv fid frameId (msgs.foldl (fun s2 m => deliverMessage s2 m now) s) := by
  intro msgs
  induction msgs with
  | nil => exact fun s _ h => h
  | cons m t ih =>
    intro s hm h
    rw [List.foldl_cons]
    exact ih _ (fun q hq => hm q (List.mem_cons_of_mem _ hq))
      (deliverMessage_inv fid frameId s m now (hm m (List.mem_cons_self _ _)) h)

lemma sendWithResponse_inv (s0 : Session) (frameId : String)
    (hws : s0.hasWs = true) (hopen : s0.wsOpen = true)
    (hfut : ∀ p ∈ s0.futures, p.1 < s0.nextFut)
    (hlis : ∀ p ∈ s0.swrListeners, p.1 < s0.nextFut)
    (hpend : ∀ p ∈ s0.pendingRequests, p.2 < s0.nextFut ∧ p.1 ≠ frameId) :
    (sendWithResponse s0 frameId).2 = s0.nextFut
    ∧ swrInv s0.nextFut frameId (sendWithResponse s0 frameId).1 := by
  unfold sendWithResponse
  dsimp only
  rw [hws, hopen]
  rw [if_pos (show (true && true) = true from rfl)]
  refine ⟨rfl, ?_, ?_, ?_⟩
  · apply lookup_append_singleton
    apply lookup_none_of_keys_ne
    intro p hp
    exact Nat.ne_of_lt (hfut p hp)
  · intro p hp hp1
    rcases List.mem_append.mp hp with hin | hin
    · exact absurd hp1 (Nat.ne_of_lt (hlis p hin))
    · rcases List.mem_singleton.mp hin with he
      rw [he]
  · intro p hp
    exact ⟨Nat.ne_of_lt (hpend p hp).1, (hpend p hp).2⟩

lemma sendTimeoutFire_parts (s : Session) (l : Nat × String) :
    (sendTimeoutFire s l).futures = resolveFut s.futures l.1 .null
    ∧ (sendTimeoutFire s l).pendingRequests = s.pendingRequests := by
  unfold sendTimeoutFire
  by_cases hw : s.hasWs = true
  · rw [if_pos hw]
    exact ⟨rfl, rfl⟩
  · rw [if_neg hw]
    exact ⟨rfl, rfl⟩

/-- Claim C4: a request sent via sendWithResponse on an open socket that
receives no matching response (any sequence of other inbound messages may
arrive) has its future resolved with null when the 10000 ms timer fires:
it is never rejected and cannot hang past the deadline, and no
pending-request entry for the frame id remains afterwards. -/
theorem c4_timeout_resolves_null (s0 : Session) (frameId : String)
    (msgs : List (Option JValue)) (now : Nat)
    (hws : s0.hasWs = true) (hopen : s0.wsOpen = true)
    (hfut : ∀ p ∈ s0.futures, p.1 < s0.nextFut)
    (hlis : ∀ p ∈ s0.swrListeners, p.1 < s0.nextFut)
    (hpend : ∀ p ∈ s0.pendingRequests, p.2 < s0.nextFut ∧ p.1 ≠ frameId)
    (hmsgs : ∀ m ∈ msgs, matchesResp m frameId = false) :
    ((sendTimeoutFire (msgs.foldl (fun s m => deliverMessage s m now)
          (sendWithResponse s0 frameId).1)
        ((sendWithResponse s0 frameId).2, frameId)).futures.lookup
      (sendWithResponse s0 frameId).2 = some (FutState.resolved .null))
    ∧ ((sendTimeoutFire (msgs.foldl (fun s m => deliverMessage s m now)
          (sendWithResponse s0 frameId).1)
        ((sendWithResponse s0 frameId).2, frameId)).pendingRequests.lookup frameId
      = none) := by
  obtain ⟨hfid, hinv⟩ := sendWithResponse_inv s0 frameId hws hopen hfut hlis hpend
  rw [hfid]
  obtain ⟨hf2, hl2, hp2⟩ := msgsFold_inv s0.nextFut frameId now msgs
    (sendWithResponse s0 frameId).1 hmsgs hinv
  constructor
  · rw [(sendTimeoutFire_parts _ _).1]
    unfold resolveFut
    exact lookup_settleFutWith_pending _ _ _ hf2
  · rw [(sendTimeoutFire_parts _ _).2]
    exact lookup_none_of_keys_ne _ _ (fun p hp => (hp2 p hp).2)

/-- Claim C4 witness: a concrete request r1 on the connected session sees
an unrecognized frame, an unrelated response and a malformed message, no
matching response; firing the timer resolves its future with null and no
pending entry for r1 remains. -/
theorem c4_witness :
    ((sendTimeoutFire ([some unknownFrame, some rspHello, none].foldl
          (fun s m => deliverMessage s m 0)
          (sendWithResponse sessionConn "r1").1)
        ((sendWithResponse sessionConn "r1").2, "r1")).futures.lookup
      (sendWithResponse sessionConn "r1").2 = some (FutState.resolved .null))
    ∧ ((sendTimeoutFire ([some unknownFrame, some rspHello, none].foldl
          (fun s m => deliverMessage s m 0)
          (sendWithResponse sessionConn "r1").1)
        ((sendWithResponse sessionConn "r1").2, "r1")).pendingRequests.lookup "r1"
      = none) :=
  c4_timeout_resolves_null sessionConn "r1" [some unknownFrame, some rspHello, none] 0
    rfl rfl (by decide) (by decide) (by decide) (by decide)

/-- Claim C5, amended: a response with ok falsy whose id matches an entry
of the pendingRequests map causes handleResponse to reject that entry's
future with an Error carrying the message derived from the response error
field (errMsgOf: error.message when truthy, the fallback Request failed
otherwise — the numeric code is not propagated) and to remove the entry;
the per-call handler of sendWithResponse, which bypasses that map, instead
resolves the caller's future with null on a matching ok-falsy response, so
the server-reported failure is not surfaced to the caller as an error. -/
theorem c5_errmsg_reject_and_null_to_caller (s : Session) (r : JValue) (rid : String)
    (fid : Nat) (now : Nat)
    (hid : r.strField "id" = some rid)
    (hq : s.pendingRequests.lookup rid = some fid)
    (hok : truthyOpt (r.getField "ok") = false)
    (hf : s.futures.lookup fid = some FutState.pending) :
    ((handleResponse s r now).futures.lookup fid
        = some (FutState.rejected (errMsgOf r))
      ∧ (handleResponse s r now).pendingRequests.lookup rid = none)
    ∧ ∀ (s2 : Session) (fid2 : Nat) (frameId : String) (j : JValue),
        matchesResp (some j) frameId = true →
        truthyOpt (j.getField "ok") = false →
        s2.futures.lookup fid2 = some FutState.pending →
        (swrMessageHandler (some j) s2 (fid2, frameId)).futures.lookup fid2
          = some (FutState.resolved .null) := by
  constructor
  · obtain ⟨e1, e2, _⟩ := handleResponse_parts s r now
    rw [e1, e2, settleMatching_eq_id s r rid hid,
      settleMatchingId_eq_found s r rid fid hq]
    obtain ⟨f1, f2, _⟩ := settleFound_parts s r rid fid
    rw [f1, f2]
    rw [if_neg (fun hh => by rw [hok] at hh; cases hh)]
    constructor
    · unfold rejectFut
      exact lookup_settleFutWith_pending _ _ _ hf
    · exact lookup_filter_ne _ _
  · intro s2 fid2 frameId j hm hok2 hf2
    unfold swrMessageHandler
    rw [if_pos hm]
    show (resolveFut s2.futures fid2 (swrRespValue (some j))).lookup fid2
      = some (FutState.resolved .null)
    have hval : swrRespValue (some j) = .null := by
      show (if truthyOpt (j.getField "ok") = true
          then (j.getField "payload").getD JValue.null
          else JValue.null) = JValue.null
      rw [if_neg (fun hh => by rw [hok2] at hh; cases hh)]
    rw [hval]
    unfold resolveFut
    exact lookup_settleFutWith_pending _ _ _ hf2

/-- A session holding one correlator entry for request r1 backed by a
pending future. -/
def sessionPend : Session :=
  { sessionConn with pendingRequests := [("r1", 0)],
                     futures := [(0, FutState.pending)] }

/-- Claim C5 witness: the amended theorem at the concrete ok-false
response rspErr against a session holding a map entry for r1. -/
theorem c5_witness :
    ((handleResponse sessionPend rspErr 9).futures.lookup 0
        = some (FutState.rejected (errMsgOf rspErr)))
      ∧ ((handleResponse sessionPend rspErr 9).pendingRequests.lookup "r1"
        = none) :=
  (c5_errmsg_reject_and_null_to_caller sessionPend rspErr "r1" 0 9
    rfl rfl rfl rfl).1

end Webot
